import Mathlib

/-!
Shallow embedding of the ACPI action dispatcher of tjtools-python
(src/tjtools/scripts/acpi_action.py and src/tjtools/acpi_actions/),
together with theorems settling the frozen claims about it.

Python-side effects (file writes, datagram sends, notifications) are made
explicit as an effect trace; an uncaught Python exception is an
`Except.error` carrying the exception class.
-/

set_option maxHeartbeats 1000000

namespace TJTools

/-- Scalar JSON values as produced by json.loads for the configuration
entries this subsystem reads. -/
inductive JValue where
  | str (s : String)
  | int (n : Int)
  | bool (b : Bool)
  | null
  deriving DecidableEq, Repr

/-- A parsed JSON object, as an association list (json.loads keeps the last
binding of a duplicated key; the configurations in the claims have no
duplicate keys, and lookup takes the first match). -/
abbrev JObj := List (String × JValue)

def jlookup (o : JObj) (k : String) : Option JValue :=
  (o.find? (fun p => p.1 == k)).map (fun p => p.2)

deriving instance DecidableEq for Except

/-- Exception classes that the embedded code can raise. -/
inductive PyError where
  | typeError
  | valueError
  | runtimeError (msg : String)
  | jsonDecodeError
  | osError
  | attributeError
  | connectionError
  | calledProcessError
  deriving DecidableEq, Repr

/-- The ActionConfig dataclass of acpi_actions/common.py.  Python stores
whatever values the constructor received, so the fields are JSON values. -/
structure ActionConfig where
  notify_user : JValue
  ac_adapter_sysfs : JValue
  ac_adapter_device : JValue
  battery_device : JValue
  wmi_device : JValue
  power_button : JValue
  sleep_button : JValue
  lid_button : JValue
  brightness_modifier : JValue
  deriving DecidableEq, Repr

/-- Python call semantics for the dataclass constructor `ActionConfig(...)`:
the dataclass declares nine positional parameters, and a call with any other
number of positional arguments raises TypeError before any field is
assigned. -/
def ActionConfig.construct (args : List JValue) : Except PyError ActionConfig :=
  match args with
  | [a1, a2, a3, a4, a5, a6, a7, a8, a9] =>
      .ok ⟨a1, a2, a3, a4, a5, a6, a7, a8, a9⟩
  | _ => .error .typeError

/-- The `_entries` tuple of mandatory configuration keys. -/
def ActionConfig.entries : List String :=
  ["notify-user", "ac-adapter-sysfs", "ac-adapter-device", "battery-device",
   "wmi-device", "power-button", "sleep-button", "lid-button",
   "brightness-modifier"]

/-- `isinstance(x, str) or x is None`, the per-field string check. -/
def isStrOrNone : JValue → Bool
  | .str _ => true
  | .null => true
  | _ => false

/-- `isinstance(x, int)` — in Python, bool is a subclass of int. -/
def isIntLike : JValue → Bool
  | .int _ => true
  | .bool _ => true
  | _ => false

/-- Numeric value of an int-like Python value (True is 1, False is 0). -/
def intValue : JValue → Int
  | .int n => n
  | .bool b => if b then 1 else 0
  | _ => 0

/-- `ActionConfig.from_path` of acpi_actions/common.py.  The filesystem is
abstracted to whether the path is a regular file and, when reading and JSON
parsing succeed, the parsed object.  The final step is the source line
`return ActionConfig(notify_user, ac_adapter_sysfs, ac_adapter_device,
battery_device, power_button, sleep_button, lid_button, brightness_modifier)`,
which passes eight positional arguments (wmi_device is omitted) to the
nine-parameter constructor. -/
def ActionConfig.from_path (is_file : Bool) (content : Option JObj) :
    Except PyError ActionConfig :=
  if is_file = false then
    .error (.runtimeError "config path is not a file")
  else
    match content with
    | none => .error .jsonDecodeError
    | some cd =>
      if (ActionConfig.entries.all (fun e => (jlookup cd e).isSome)) = false then
        .error (.runtimeError "config entry missing")
      else
        let notify_user := (jlookup cd "notify-user").getD .null
        let ac_adapter_sysfs := (jlookup cd "ac-adapter-sysfs").getD .null
        let ac_adapter_device := (jlookup cd "ac-adapter-device").getD .null
        let battery_device := (jlookup cd "battery-device").getD .null
        let _wmi_device := (jlookup cd "wmi-device").getD .null
        let power_button := (jlookup cd "power-button").getD .null
        let sleep_button := (jlookup cd "sleep-button").getD .null
        let lid_button := (jlookup cd "lid-button").getD .null
        if ([notify_user, ac_adapter_sysfs, ac_adapter_device, battery_device,
             power_button, sleep_button, lid_button].all isStrOrNone) = false then
          .error (.runtimeError "invalid string value")
        else
          let brightness_modifier := (jlookup cd "brightness-modifier").getD .null
          if ((!(isIntLike brightness_modifier) ||
               decide (intValue brightness_modifier ≤ 0)) &&
              !(brightness_modifier == JValue.null)) = true then
            .error (.runtimeError "invalid modifer value")
          else
            ActionConfig.construct
              [notify_user, ac_adapter_sysfs, ac_adapter_device, battery_device,
               power_button, sleep_button, lid_button, brightness_modifier]

/-- A well-formed configuration object: all nine mandatory keys present,
every identifier a string, the brightness step a positive integer. -/
def validConfigData : JObj :=
  [("notify-user", .str "user"),
   ("ac-adapter-sysfs", .str "ACAD"),
   ("ac-adapter-device", .str "ACAD0"),
   ("battery-device", .str "BAT0"),
   ("wmi-device", .str "PNP0C14"),
   ("power-button", .str "PBTN"),
   ("sleep-button", .str "SBTN"),
   ("lid-button", .str "LID"),
   ("brightness-modifier", .int 15)]

/-- Every control path of from_path either raises during validation or
reaches the eight-argument constructor call, so it never returns a
configuration value. -/
theorem from_path_no_ok :
    ∀ (b : Bool) (c : Option JObj) (cfg : ActionConfig),
      ActionConfig.from_path b c ≠ .ok cfg := by
  intro b c cfg h
  unfold ActionConfig.from_path at h
  split at h
  · exact absurd h (by simp)
  · split at h
    · exact absurd h (by simp)
    · split at h
      · exact absurd h (by simp)
      · dsimp only at h
        split at h
        · exact absurd h (by simp)
        · split at h
          · exact absurd h (by simp)
          · exact absurd h (by simp [ActionConfig.construct])

/-- C1: For every configuration file that is a regular file containing
well-formed structured data with all nine mandatory keys, where every
identifier field is a string and the brightness-step field is a positive
integer, load returns an ActionConfig value.  This fails on the code:
`from_path` never returns a value for any input, because the final
`ActionConfig(...)` call passes only eight of the nine required positional
arguments (wmi_device is omitted) and so raises TypeError; in particular it
raises TypeError on a fully valid configuration. -/
theorem from_path_never_returns_config :
    (∀ (b : Bool) (c : Option JObj) (cfg : ActionConfig),
        ActionConfig.from_path b c ≠ .ok cfg) ∧
    ActionConfig.from_path true (some validConfigData) =
      .error .typeError :=
  ⟨from_path_no_ok, rfl⟩

/-! ## Brightness wire protocol frames (acpi_actions/common.py) -/

/-- Opcode values of the CommandType IntEnum. -/
def CommandType.SetState : Nat := 0

def CommandType.ModifyState : Nat := 1

def CommandType.SaveState : Nat := 2

def CommandType.RestoreState : Nat := 3

def CommandType.SetPowersave : Nat := 4

/-- Little-endian bytes of a c_int32 field holding value v: ctypes masks the
assigned value to 32 bits, two's complement. -/
def int32LE (v : Int) : List Nat :=
  let w := (v % (2 ^ 32 : Int)).toNat
  [w % 256, w / 256 % 256, w / 2 ^ 16 % 256, w / 2 ^ 24 % 256]

/-- Decode a signed little-endian 32-bit integer from four bytes. -/
def int32FromLE (b0 b1 b2 b3 : Nat) : Int :=
  let w : Nat := b0 % 256 + 256 * (b1 % 256) + 2 ^ 16 * (b2 % 256) + 2 ^ 24 * (b3 % 256)
  if w < 2 ^ 31 then (w : Int) else (w : Int) - 2 ^ 32

/-- `ModifyStateFrame.serialize`: the struct is packed (`_pack_ = 1`) with
fields u8 type, u8 len, i32 value, so sizeof is 6 and serialize memmoves
those 6 bytes into the output buffer. -/
def ModifyStateFrame.serialize (ty ln : Nat) (value : Int) : List Nat :=
  [ty % 256, ln % 256] ++ int32LE value

/-- `SimpleCommandFrame.serialize`: the struct is 2 packed bytes (u8 type,
u8 len), but the source sets `self_size = sizeof(ModifyStateFrame)` (6) and
memmoves 6 bytes starting at the address of the 2-byte struct, so the
returned buffer is the two struct bytes followed by the next four bytes of
adjacent process memory, modelled as parameters j0 to j3. -/
def SimpleCommandFrame.serialize (ty ln j0 j1 j2 j3 : Nat) : List Nat :=
  [ty % 256, ln % 256, j0 % 256, j1 % 256, j2 % 256, j3 % 256]

/-- The frame layout of spec section 4.2: opcode byte, length byte, then a
payload of 0 or 4 bytes read as a signed little-endian 32-bit integer. -/
def decodeFrame (bs : List Nat) : Option (Nat × Option Int) :=
  match bs with
  | [t, l] => if l = 0 then some (t, none) else none
  | [t, l, b0, b1, b2, b3] => if l = 4 then some (t, some (int32FromLE b0 b1 b2 b3)) else none
  | _ => none

/-- C3 (code bug): a serialized SaveState frame should be exactly 2 bytes
with length byte 0, but `SimpleCommandFrame.serialize` copies
sizeof(ModifyStateFrame) = 6 bytes, so the frame is 6 bytes long (here
evaluated with zeroed adjacent memory); the opcode and length bytes do sit
at offsets 0 and 1. -/
theorem simple_frame_serializes_to_6_bytes :
    SimpleCommandFrame.serialize CommandType.SaveState 0 0 0 0 0 =
      [2, 0, 0, 0, 0, 0] ∧
    (SimpleCommandFrame.serialize CommandType.SaveState 0 0 0 0 0).length ≠ 2 := by
  decide

/-! ## Debounce slot store -/

/-- `int.from_bytes(bs, byteorder='little')`. -/
def intFromBytesLE (bs : List Nat) : Nat :=
  bs.foldr (fun b acc => b % 256 + 256 * acc) 0

/-- `n.to_bytes((n.bit_length() + 7) // 8, byteorder='little')`: the minimal
little-endian byte string of a nonnegative integer, empty for zero. -/
def intToBytesLE (n : Nat) : List Nat :=
  if n = 0 then [] else n % 256 :: intToBytesLE (n / 256)
termination_by n
decreasing_by exact Nat.div_lt_self (Nat.pos_of_ne_zero (by assumption)) (by norm_num)

/-- `path.read_bytes()`: raises OSError when the file is missing or
unreadable, otherwise returns the file content.  The slot file is abstracted
to `none` (read raises) or `some bytes`. -/
def pyReadBytes (file : Option (List Nat)) : Except PyError (List Nat) :=
  match file with
  | none => .error .osError
  | some bs => .ok bs

/-- The slot read step inlined in `_power_button` and `_sleep_button`:
`int.from_bytes(path.read_bytes(), byteorder='little')` inside a
`try`/`except Exception` that yields None when anything raises. -/
def read_slot (file : Option (List Nat)) : Option Nat :=
  match pyReadBytes file with
  | .error _ => none
  | .ok bs => some (intFromBytesLE bs)

/-- C8 counterexample: an existing but empty slot file is not read as "no
prior value": `int.from_bytes` of the empty byte string is 0, so the read
yields the stored value 0. -/
theorem read_slot_empty_file_yields_zero :
    read_slot (some []) = some 0 ∧ read_slot (some []) ≠ none := by
  decide

/-- C8 amended: the slot read returns the decoded integer whenever the file
exists and is readable (there is no failure for an empty or oversized file:
every byte string decodes, the empty one to 0), and returns no value,
without raising, exactly when the read itself fails (missing file). -/
theorem read_slot_decodes_or_degrades :
    (∀ file, read_slot file = Option.map intFromBytesLE file) ∧
    read_slot none = none := by
  refine ⟨fun file => ?_, rfl⟩
  cases file <;> rfl

/-! ## Effect traces -/

/-- Observable side effects of the handlers. -/
inductive Effect where
  | slotWrite (path : String) (bytes : List Nat)
  | frameSent (bytes : List Nat)
  | notifySent (subsystem : String) (msg : String)
  | blankScreen
  | powerOff
  | suspendSystem
  | chmodOtherRead (path : String)
  deriving DecidableEq, Repr

/-- A handler outcome: the effects performed in order, then either the
returned integer or an uncaught exception. -/
abbrev HRes := List Effect × Except PyError Int

/-- Lift a helper that returns None in Python into the final `return 0` of
its caller, keeping its effects and letting exceptions through. -/
def toStatus0 (r : List Effect × Except PyError Unit) : HRes :=
  (r.1, r.2.map (fun _ => 0))

/-! ## acpi_actions/button.py -/

namespace button

def state_power_button : String := "/run/acpi_powerbutton"

def state_sleep_button : String := "/run/acpi_sleepbutton"

/-- Maximum delay between two button presses in milliseconds (source value
2400.0; the comparison is between an integer difference and this constant,
and `< 2400.0` agrees with `< 2400` on integers). -/
def max_delay : Nat := 2400

def valid_power_button : String := "PBTN"

def valid_sleep_button : String := "SBTN"

def valid_lid_button : String := "LID"

/-- Per-invocation environment of the button handlers: the bytes currently
stored in each debounce slot (none means reading raises) and the current
time `int(time() * 1000.0)` in milliseconds. -/
structure Env where
  power_slot : Option (List Nat)
  sleep_slot : Option (List Nat)
  cur_time : Nat

/-- `_sleep_button`: mismatched device returns silently; otherwise read the
slot (failures degrade to None), write the current time back
unconditionally, and suspend only on a confirmed double press. -/
def sleep_button (env : Env) (device : Option String) :
    List Effect × Except PyError Unit :=
  if device ≠ some valid_sleep_button then ([], .ok ())
  else
    let last_time := read_slot env.sleep_slot
    let w := Effect.slotWrite state_sleep_button (intToBytesLE env.cur_time)
    match last_time with
    | none => ([w], .ok ())
    | some lt =>
        if ((env.cur_time : Int) - (lt : Int)).natAbs < max_delay then
          ([w, .suspendSystem], .ok ())
        else ([w], .ok ())

/-- `_power_button`: mismatched device returns silently; otherwise read the
slot, write the current time back unconditionally, then power off on a
confirmed double press and blank the screen otherwise. -/
def power_button (env : Env) (device : Option String) :
    List Effect × Except PyError Unit :=
  if device ≠ some valid_power_button then ([], .ok ())
  else
    let last_time := read_slot env.power_slot
    let w := Effect.slotWrite state_power_button (intToBytesLE env.cur_time)
    match last_time with
    | none => ([w, .blankScreen], .ok ())
    | some lt =>
        if ((env.cur_time : Int) - (lt : Int)).natAbs < max_delay then
          ([w, .powerOff], .ok ())
        else ([w, .blankScreen], .ok ())

/-- `_lid_button`. -/
def lid_button (device identifier : Option String) :
    List Effect × Except PyError Unit :=
  if device ≠ some valid_lid_button then
    ([], .error (.runtimeError "invalid lid button"))
  else if identifier = some "open" ∨ identifier = some "close" then ([], .ok ())
  else ([], .error (.runtimeError "unknown lid state"))

/-- `_volume_button`. -/
def volume_button (device _identifier : Option String) :
    List Effect × Except PyError Unit :=
  if device ≠ some "00000080" then
    ([], .error (.runtimeError "unknown volume button"))
  else ([], .ok ())

/-- `_direction_pad`; `device.lower()` raises AttributeError when the device
argument is None. -/
def direction_pad (device : Option String) : List Effect × Except PyError Unit :=
  match device with
  | none => ([], .error .attributeError)
  | some d =>
      if d.toLower = "up" ∨ d.toLower = "down" ∨ d.toLower = "left" ∨
          d.toLower = "right" then ([], .ok ())
      else if d ≠ "00000080" then
        ([], .error (.runtimeError "unknown direction pad"))
      else ([], .ok ())

/-- `handle_event` of acpi_actions/button.py: dispatch on the action inside
a try block whose `except RuntimeError` converts the error to status 3; any
other exception class propagates out of the handler. -/
def handle_event (env : Env) (action device identifier : Option String) : HRes :=
  let body : HRes :=
    if action = some "power" then toStatus0 (power_button env device)
    else if action = some "sleep" then toStatus0 (sleep_button env device)
    else if action = some "lid" then toStatus0 (lid_button device identifier)
    else if action = some "volumedown" ∨ action = some "volumeup" then
      toStatus0 (volume_button device identifier)
    else if action = some "up" ∨ action = some "down" ∨ action = some "left" ∨
        action = some "right" then
      toStatus0 (direction_pad device)
    else ([], .ok 2)
  match body with
  | (effs, .error (.runtimeError _)) => (effs, .ok 3)
  | r => r

end button

/-- C5: for every power or sleep button event with matching device, the
current timestamp is written to the slot in every case, the helper returns
normally, and the primary action (power off, suspend) fires exactly when a
prior slot value exists whose distance to the current time is strictly below
2400 ms; otherwise the secondary action fires (screen blank for the power
button, nothing besides the slot write for the sleep button). -/
theorem button_debounce_classification :
    ∀ env : button.Env,
      (Effect.slotWrite button.state_power_button (intToBytesLE env.cur_time) ∈
          (button.power_button env (some "PBTN")).1) ∧
      (button.power_button env (some "PBTN")).2 = .ok () ∧
      (Effect.powerOff ∈ (button.power_button env (some "PBTN")).1 ↔
        ∃ lt, read_slot env.power_slot = some lt ∧
          ((env.cur_time : Int) - (lt : Int)).natAbs < 2400) ∧
      (Effect.blankScreen ∈ (button.power_button env (some "PBTN")).1 ↔
        ¬ ∃ lt, read_slot env.power_slot = some lt ∧
          ((env.cur_time : Int) - (lt : Int)).natAbs < 2400) ∧
      (Effect.slotWrite button.state_sleep_button (intToBytesLE env.cur_time) ∈
          (button.sleep_button env (some "SBTN")).1) ∧
      (button.sleep_button env (some "SBTN")).2 = .ok () ∧
      (Effect.suspendSystem ∈ (button.sleep_button env (some "SBTN")).1 ↔
        ∃ lt, read_slot env.sleep_slot = some lt ∧
          ((env.cur_time : Int) - (lt : Int)).natAbs < 2400) ∧
      ((button.sleep_button env (some "SBTN")).1 =
          [Effect.slotWrite button.state_sleep_button (intToBytesLE env.cur_time)] ∨
        (button.sleep_button env (some "SBTN")).1 =
          [Effect.slotWrite button.state_sleep_button (intToBytesLE env.cur_time),
           Effect.suspendSystem]) := by
  intro env
  have hp : (some "PBTN" : Option String) ≠ some button.valid_power_button ↔ False := by
    simp [button.valid_power_button]
  have hs : (some "SBTN" : Option String) ≠ some button.valid_sleep_button ↔ False := by
    simp [button.valid_sleep_button]
  cases hslot : read_slot env.power_slot with
  | none =>
    cases hsleep : read_slot env.sleep_slot with
    | none =>
      simp [button.power_button, button.sleep_button, hslot, hsleep, hp, hs]
    | some lt =>
      by_cases hlt : ((env.cur_time : Int) - (lt : Int)).natAbs < 2400 <;>
        simp [button.power_button, button.sleep_button, hslot, hsleep, hp, hs,
          button.max_delay, hlt]
  | some lt =>
    by_cases hlt : ((env.cur_time : Int) - (lt : Int)).natAbs < 2400 <;>
      cases hsleep : read_slot env.sleep_slot with
      | none =>
        simp [button.power_button, button.sleep_button, hslot, hsleep, hp, hs,
          button.max_delay, hlt]
      | some lt2 =>
        by_cases hlt2 : ((env.cur_time : Int) - (lt2 : Int)).natAbs < 2400 <;>
          simp [button.power_button, button.sleep_button, hslot, hsleep, hp, hs,
            button.max_delay, hlt, hlt2]

/-! ## Python int() conversion -/

/-- Value of a nonempty all-digit character list, else none. -/
def digitsVal (cs : List Char) : Option Nat :=
  if cs.isEmpty || !(cs.all Char.isDigit) then none
  else some (cs.foldl (fun acc c => acc * 10 + (c.toNat - 48)) 0)

/-- Strip leading and trailing whitespace from a character list. -/
def stripWS (cs : List Char) : List Char :=
  ((cs.dropWhile Char.isWhitespace).reverse.dropWhile Char.isWhitespace).reverse

/-- Python `int(s)` on a string: optional surrounding whitespace, an
optional sign, then decimal digits; anything else raises ValueError. -/
def pyParseInt (s : String) : Except PyError Int :=
  match stripWS s.toList with
  | '-' :: rest =>
      match digitsVal rest with
      | some n => .ok (-(n : Int))
      | none => .error .valueError
  | '+' :: rest =>
      match digitsVal rest with
      | some n => .ok (n : Int)
      | none => .error .valueError
  | cs =>
      match digitsVal cs with
      | some n => .ok (n : Int)
      | none => .error .valueError

/-- Python `int(x)` where x is a string or None: `int(None)` raises
TypeError, not ValueError. -/
def pyInt (v : Option String) : Except PyError Int :=
  match v with
  | none => .error .typeError
  | some s => pyParseInt s

/-- Python equality between an optional string argument and a stored
configuration value: None equals only None, a string equals only the same
string, and values of different types are unequal. -/
def pyEqJ (d : Option String) (v : JValue) : Bool :=
  match d, v with
  | none, .null => true
  | some s, .str t => s == t
  | _, _ => false

/-! ## BrightnessControl (acpi_actions/common.py) -/

/-- Environment of a brightness client: whether
/etc/brightness-daemon.conf is readable and parses, its socket-path entry,
whether that path exists as a socket, whether connect and send succeed, and
the four bytes of adjacent memory that SimpleCommandFrame.serialize picks
up. -/
structure BCEnv where
  conf_readable : Bool
  socket_path : Option String
  path_is_socket : Bool
  connect_ok : Bool
  send_ok : Bool
  j0 : Nat
  j1 : Nat
  j2 : Nat
  j3 : Nat

/-- `BrightnessControl.__init__`: read the daemon configuration (raising
when that fails), leave `client = None` when the socket-path entry is
missing or the path is not a socket, otherwise connect.  The Bool result is
whether a client socket exists afterwards. -/
def BrightnessControl.init (env : BCEnv) : Except PyError Bool :=
  if env.conf_readable = false then .error .osError
  else
    match env.socket_path with
    | none => .ok false
    | some _ =>
        if env.path_is_socket = false then .ok false
        else if env.connect_ok then .ok true
        else .error .connectionError

/-- `BrightnessControl._simple_command`: without a client nothing happens;
otherwise serialize a SimpleCommandFrame with the given command type and
length 0 and send it as one datagram, sendall raising on a transmission
failure. -/
def BrightnessControl.simple_command (env : BCEnv) (client : Bool) (cmd : Nat) :
    List Effect × Except PyError Unit :=
  if client = false then ([], .ok ())
  else
    let frame := SimpleCommandFrame.serialize cmd 0 env.j0 env.j1 env.j2 env.j3
    if env.send_ok then ([.frameSent frame], .ok ())
    else ([], .error .osError)

/-- `BrightnessControl.modify_brightness`: a ModifyStateFrame with type
ModifyState, length 4 and the signed value. -/
def BrightnessControl.modify_brightness (env : BCEnv) (client : Bool) (value : Int) :
    List Effect × Except PyError Unit :=
  if client = false then ([], .ok ())
  else
    let frame := ModifyStateFrame.serialize CommandType.ModifyState 4 value
    if env.send_ok then ([.frameSent frame], .ok ())
    else ([], .error .osError)

def BrightnessControl.save_state (env : BCEnv) (client : Bool) :
    List Effect × Except PyError Unit :=
  BrightnessControl.simple_command env client CommandType.SaveState

def BrightnessControl.restore_state (env : BCEnv) (client : Bool) :
    List Effect × Except PyError Unit :=
  BrightnessControl.simple_command env client CommandType.RestoreState

def BrightnessControl.set_powersave (env : BCEnv) (client : Bool) :
    List Effect × Except PyError Unit :=
  BrightnessControl.simple_command env client CommandType.SetPowersave

/-! ## acpi_actions/ac_adapter.py -/

namespace ac_adapter

def state_file : String := "/run/acpi_acadapter"

/-- The unplugged branch body: construct a BrightnessControl, then
save_state, then set_powersave, propagating the first raise. -/
def save_and_powersave (benv : BCEnv) : List Effect × Except PyError Unit :=
  match BrightnessControl.init benv with
  | .error e => ([], .error e)
  | .ok client =>
      let r1 := BrightnessControl.save_state benv client
      match r1.2 with
      | .error e => (r1.1, .error e)
      | .ok _ =>
          let r2 := BrightnessControl.set_powersave benv client
          (r1.1 ++ r2.1, r2.2)

/-- The plugged-in branch body: construct a BrightnessControl, then
restore_state. -/
def restore (benv : BCEnv) : List Effect × Except PyError Unit :=
  match BrightnessControl.init benv with
  | .error e => ([], .error e)
  | .ok client => BrightnessControl.restore_state benv client

/-- The tail of handle_event after the state branch: write the state to the
slot file (failure is status 4), then notify.  The source notification call
is `_exec_notify(msg)`: one positional argument for the two-parameter
`_exec_notify(cfg, msg)`, so it raises TypeError inside its try block and
the handler always takes the `return 5` branch instead of `return 0`. -/
def finish_event (brightness_effects : List Effect) (state : Nat)
    (write_ok : Bool) : HRes :=
  if write_ok = false then (brightness_effects, .ok 4)
  else
    (brightness_effects ++ [Effect.slotWrite state_file (intToBytesLE state)],
     .ok 5)

/-- `handle_event` of acpi_actions/ac_adapter.py: reject a mismatched
device with status 1; convert the identifier with `int(...)` where only
ValueError is caught (status 2) and any other exception class propagates;
dispatch on the state (unknown states are status 3); brightness raises are
caught and logged; then write the slot and notify. -/
def handle_event (benv : BCEnv) (write_ok : Bool) (cfg : ActionConfig)
    (device identifier : Option String) : HRes :=
  if pyEqJ device cfg.ac_adapter_device = false then ([], .ok 1)
  else
    match pyInt identifier with
    | .error .valueError => ([], .ok 2)
    | .error e => ([], .error e)
    | .ok state =>
        if state = 0 then
          finish_event (save_and_powersave benv).1 0 write_ok
        else if state = 1 then
          finish_event (restore benv).1 1 write_ok
        else ([], .ok 3)

end ac_adapter

/-! ## acpi_actions/video.py -/

namespace video

/-- `_modify_brightness` of acpi_actions/video.py: read the daemon config,
create a datagram socket, return silently when the socket-path entry is
missing or the path is not a socket; otherwise connect and send one
ModifyState frame with length 4 and the value (assigning a non-int to the
c_int32 field raises TypeError). -/
def modify_brightness (benv : BCEnv) (value : JValue) :
    List Effect × Except PyError Unit :=
  if benv.conf_readable = false then ([], .error .osError)
  else
    match benv.socket_path with
    | none => ([], .ok ())
    | some _ =>
        if benv.path_is_socket = false then ([], .ok ())
        else if benv.connect_ok = false then ([], .error .connectionError)
        else if isIntLike value = false then ([], .error .typeError)
        else
          let frame := ModifyStateFrame.serialize CommandType.ModifyState 4
            (intValue value)
          if benv.send_ok then ([.frameSent frame], .ok ())
          else ([], .error .osError)

/-- The try/except Exception around `_modify_brightness`: any raise becomes
status 2, success becomes status 0. -/
def run_modify (benv : BCEnv) (value : JValue) : HRes :=
  match modify_brightness benv value with
  | (effs, .ok _) => (effs, .ok 0)
  | (effs, .error _) => (effs, .ok 2)

/-- `handle_event` of acpi_actions/video.py: brightnessdown with device
BRTDN uses `-cfg.brightness_modifier` (the unary minus raises TypeError on
a non-int before the try block); brightnessup with device BRTUP uses
`cfg.brightness_modifier`; any other action/device pair is status 1. -/
def handle_event (benv : BCEnv) (cfg : ActionConfig)
    (action device : Option String) : HRes :=
  if action = some "brightnessdown" ∧ device = some "BRTDN" then
    if isIntLike cfg.brightness_modifier then
      run_modify benv (.int (-(intValue cfg.brightness_modifier)))
    else ([], .error .typeError)
  else if action = some "brightnessup" ∧ device = some "BRTUP" then
    run_modify benv cfg.brightness_modifier
  else ([], .ok 1)

end video

/-! ## acpi_actions/battery.py, jack.py, thermal_zone.py -/

namespace battery

/-- `handle_event` of acpi_actions/battery.py: a mismatched device is
status 1, everything else is logged and status 0. -/
def handle_event (cfg : ActionConfig) (device _identifier _value : Option String) :
    HRes :=
  if pyEqJ device cfg.battery_device = false then ([], .ok 1)
  else ([], .ok 0)

end battery

namespace jack

/-- `handle_event` of acpi_actions/jack.py: map the action to a display
name and icon, then notify (an unknown action or a notify failure is status
1); the f-string renders a missing identifier as the text None. -/
def handle_event (notify_ok : Bool) (_cfg : ActionConfig)
    (action identifier : Option String) : HRes :=
  let target : Option String :=
    if action = some "headphone" then some "Headphones"
    else if action = some "videoout" then some "Video output"
    else if action = some "lineout" then some "Line out"
    else none
  match target with
  | none => ([], .ok 1)
  | some msg_device =>
      if notify_ok then
        ([.notifySent msg_device (identifier.getD "None")], .ok 0)
      else ([], .ok 1)

end jack

namespace thermal_zone

/-- `handle_event` of acpi_actions/thermal_zone.py: log and return 0. -/
def handle_event (_cfg : ActionConfig)
    (_action _device _identifier _value : Option String) : HRes :=
  ([], .ok 0)

end thermal_zone

/-! ## scripts/acpi_action.py -/

namespace acpi_action

/-- Per-invocation environment of the dispatcher beyond its argv: the state
of the configuration file, the brightness daemon environment, the button
slots and clock, and the success of the state-file write and of the jack
notification. -/
structure Env where
  config_is_file : Bool
  config_content : Option JObj
  benv : BCEnv
  button_env : button.Env
  ac_write_ok : Bool
  jack_notify_ok : Bool

/-- Split a character list at its first slash, when it has one. -/
def splitFirstSlash : List Char → Option (List Char × List Char)
  | [] => none
  | c :: rest =>
      if c = '/' then some ([], rest)
      else
        match splitFirstSlash rest with
        | none => none
        | some (l, r) => some (c :: l, r)

/-- `args[1].split('/', maxsplit=1)` with the ValueError fallback of main:
a slash splits the group from the action, otherwise the action is None. -/
def split_group_action (s : String) : String × Option String :=
  match splitFirstSlash s.toList with
  | none => (s, none)
  | some (g, a) => (⟨g⟩, some ⟨a⟩)

/-- The group of an invocation: the part of args[1] before any slash. -/
def eventGroup (args : List String) : String :=
  (split_group_action (args.getD 1 "")).1

/-- The groups the if/elif chain of main recognizes, each routed to the
handler module of the same name; main has no wmi branch. -/
def dispatchTarget (group : String) : Option String :=
  if group = "ac_adapter" then some "ac_adapter"
  else if group = "battery" then some "battery"
  else if group = "button" then some "button"
  else if group = "jack" then some "jack"
  else if group = "thermal_zone" then some "thermal_zone"
  else if group = "video" then some "video"
  else none

/-- The handler call selected by the if/elif chain of main, with the exact
argument lists of the source.  Two call sites deviate from the handler
signatures: the ac_adapter call passes `value` where the handler parameter
is `identifier`, and the button call passes five positional arguments
(lg, config, action, device, identifier) to the four-parameter
button.handle_event(lg, action, device, identifier), which in Python raises
TypeError at the call site, outside every try block. -/
def handlerResult (env : Env) (config : ActionConfig) (args : List String) : HRes :=
  let ga := split_group_action (args.getD 1 "")
  let group := ga.1
  let action := ga.2
  let device := args[2]?
  let identifier := args[3]?
  let value := args[4]?
  if group = "ac_adapter" then
    ac_adapter.handle_event env.benv env.ac_write_ok config device value
  else if group = "battery" then
    battery.handle_event config device identifier value
  else if group = "button" then
    ([], .error .typeError)
  else if group = "jack" then
    jack.handle_event env.jack_notify_ok config action identifier
  else if group = "thermal_zone" then
    thermal_zone.handle_event config action device identifier value
  else if group = "video" then
    video.handle_event env.benv config action device
  else ([], .ok 2)

/-- The dispatch stage of main: an unrecognized group logs the event and
returns 2 directly; otherwise the selected handler runs and a non-zero
handler result is logged and mapped to exit code 3. -/
def dispatch (env : Env) (config : ActionConfig) (args : List String) : HRes :=
  if dispatchTarget (eventGroup args) = none then
    ([], .ok 2)
  else
    match handlerResult env config args with
    | (effs, .error e) => (effs, .error e)
    | (effs, .ok ret) => (effs, .ok (if ret = 0 then 0 else 3))

/-- `main` of scripts/acpi_action.py: fewer than two argv entries is a
no-op success, a configuration load failure (any exception) is exit 1, then
the dispatch stage runs. -/
def main (env : Env) (args : List String) : HRes :=
  if args.length < 2 then ([], .ok 0)
  else
    match ActionConfig.from_path env.config_is_file env.config_content with
    | .error _ => ([], .ok 1)
    | .ok config => dispatch env config args

end acpi_action

/-- A loaded configuration value: the fields from_path reads from
validConfigData, as the dataclass would hold them were its constructor call
complete. -/
def testConfig : ActionConfig :=
  { notify_user := .str "user", ac_adapter_sysfs := .str "ACAD",
    ac_adapter_device := .str "ACAD0", battery_device := .str "BAT0",
    wmi_device := .str "PNP0C14", power_button := .str "PBTN",
    sleep_button := .str "SBTN", lid_button := .str "LID",
    brightness_modifier := .int 15 }

/-- A brightness environment whose daemon socket path is absent. -/
def noSocketBCEnv : BCEnv :=
  { conf_readable := true, socket_path := none, path_is_socket := false,
    connect_ok := true, send_ok := true, j0 := 0, j1 := 0, j2 := 0, j3 := 0 }

/-- A dispatcher environment with a valid configuration file, an absent
daemon socket, missing slot files and a fixed clock. -/
def testEnv : acpi_action.Env :=
  { config_is_file := true, config_content := some validConfigData,
    benv := noSocketBCEnv,
    button_env := { power_slot := none, sleep_slot := none, cur_time := 5000 },
    ac_write_ok := true, jack_notify_ok := true }

/-! ## Claim theorems about the dispatcher -/

/-- C2 (code bug): with a loaded configuration, dispatch of a button-group
event terminates with an uncaught TypeError (main calls handle_button with
five positional arguments while button.handle_event takes four), and so
does an ac_adapter-group event whose identifier argument is absent: main
passes `value` (None here) as the handler identifier and `int(None)` raises
TypeError, which the handler's `except ValueError` does not catch. -/
theorem dispatch_crashes_unhandled :
    acpi_action.dispatch testEnv testConfig
        ["acpi_action", "button/power", "PBTN"] = ([], .error .typeError) ∧
    acpi_action.dispatch testEnv testConfig
        ["acpi_action", "ac_adapter", "ACAD0"] = ([], .error .typeError) := by
  decide

/-- C4 (code bug): the invocation `ac_adapter <configured-device> 0` should
send SaveState then SetPowersave, write 0 to the slot and notify
"unplugged".  On the code, main passes `value` (absent, None) instead of
`identifier` to the handler, so `int(None)` raises an uncaught TypeError:
no frame is sent, no slot is written, no notification happens.  In the
shipped composition the event does not even reach dispatch: from_path
always raises, so main exits 1. -/
theorem ac_adapter_unplug_scenario_crashes :
    acpi_action.dispatch testEnv testConfig
        ["acpi_action", "ac_adapter", "ACAD0", "0"] = ([], .error .typeError) ∧
    acpi_action.main testEnv ["acpi_action", "ac_adapter", "ACAD0", "0"] =
      ([], .ok 1) := by
  decide

/-- C6 counterexample: a power-button event whose device does not match the
expected power-button identifier is not rejected with a non-zero status:
the button handler silently ignores it and returns 0. -/
theorem button_device_mismatch_returns_zero :
    button.handle_event ⟨none, none, 5000⟩ (some "power") (some "WRONGDEV") none =
      ([], .ok 0) := by
  decide

/-- C6 amended: on a device mismatch the ac_adapter, battery and video
handlers return a non-zero status and perform no state mutation (no slot
write, no client send); the button handler also performs no mutation but
silently returns status 0, and it compares against the hard-coded device
names PBTN and SBTN rather than the configured identifiers. -/
theorem device_mismatch_no_mutation :
    ∀ (benv : BCEnv) (write_ok : Bool) (cfg : ActionConfig)
      (env : button.Env) (action device identifier : Option String),
      (pyEqJ device cfg.ac_adapter_device = false →
        ac_adapter.handle_event benv write_ok cfg device identifier =
          ([], .ok 1)) ∧
      (pyEqJ device cfg.battery_device = false →
        battery.handle_event cfg device identifier none = ([], .ok 1)) ∧
      (¬ (action = some "brightnessdown" ∧ device = some "BRTDN") →
        ¬ (action = some "brightnessup" ∧ device = some "BRTUP") →
        video.handle_event benv cfg action device = ([], .ok 1)) ∧
      (device ≠ some "PBTN" →
        button.handle_event env (some "power") device identifier =
          ([], .ok 0)) ∧
      (device ≠ some "SBTN" →
        button.handle_event env (some "sleep") device identifier =
          ([], .ok 0)) := by
  intro benv write_ok cfg env action device identifier
  refine ⟨fun h => ?_, fun h => ?_, fun h1 h2 => ?_, fun h => ?_, fun h => ?_⟩
  · simp [ac_adapter.handle_event, h]
  · simp [battery.handle_event, h]
  · simp [video.handle_event, h1, h2]
  · simp [button.handle_event, button.power_button, button.valid_power_button,
      h, toStatus0, Except.map]
  · simp [button.handle_event, button.sleep_button, button.valid_sleep_button,
      h, toStatus0, Except.map]

/-- Instantiation of device_mismatch_no_mutation at a concrete mismatched
device. -/
theorem device_mismatch_no_mutation_witness :
    pyEqJ (some "WRONGDEV") testConfig.ac_adapter_device = false ∧
    ac_adapter.handle_event noSocketBCEnv true testConfig (some "WRONGDEV") none =
      ([], .ok 1) :=
  ⟨by decide,
   (device_mismatch_no_mutation noSocketBCEnv true testConfig
      ⟨none, none, 0⟩ none (some "WRONGDEV") none).1 (by decide)⟩

/-- C7 counterexample: wmi is one of the claimed seven recognized groups,
yet a wmi event takes the unknown-group branch: main has no wmi case, so
dispatch returns the unknown-group exit code 2. -/
theorem wmi_group_takes_unknown_group_branch :
    acpi_action.dispatch testEnv testConfig
        ["acpi_action", "wmi", "PNP0C14", "0xd0", "0x00"] = ([], .ok 2) ∧
    acpi_action.dispatchTarget "wmi" = none := by
  decide

/-- C7 amended: the dispatcher recognizes exactly six groups (ac_adapter,
battery, button, jack, thermal_zone, video), each routed to the one handler
of that name; every other group, wmi included, returns exit code 2 with no
handler side effects. -/
theorem dispatch_routes_exactly_six_groups :
    ∀ (env : acpi_action.Env) (cfg : ActionConfig) (args : List String)
      (g : String),
      (acpi_action.dispatchTarget g = none ↔
        ¬ g ∈ ["ac_adapter", "battery", "button", "jack", "thermal_zone",
               "video"]) ∧
      (acpi_action.dispatchTarget g ≠ none →
        acpi_action.dispatchTarget g = some g) ∧
      (acpi_action.dispatchTarget (acpi_action.eventGroup args) = none →
        acpi_action.dispatch env cfg args = ([], .ok 2)) := by
  intro env cfg args g
  refine ⟨?_, ?_, fun h => ?_⟩
  · unfold acpi_action.dispatchTarget
    split_ifs <;> simp_all
  · unfold acpi_action.dispatchTarget
    split_ifs <;> simp_all
  · unfold acpi_action.dispatch
    simp [h]

/-- Instantiation of dispatch_routes_exactly_six_groups at a concrete
unrecognized group. -/
theorem dispatch_routes_exactly_six_groups_witness :
    acpi_action.dispatchTarget
        (acpi_action.eventGroup ["acpi_action", "battery2"]) = none ∧
    acpi_action.dispatch testEnv testConfig ["acpi_action", "battery2"] =
      ([], .ok 2) :=
  ⟨by decide,
   (dispatch_routes_exactly_six_groups testEnv testConfig
      ["acpi_action", "battery2"] "x").2.2 (by decide)⟩

/-- C9: when the daemon configuration has no socket-path entry or the path
is not a socket, connecting yields no client rather than an error; every
command operation (modify, save, restore, powersave) on the clientless
control sends nothing and completes without error; the video send path
likewise returns silently, and the video handler returns success. -/
theorem daemon_absent_degrades_gracefully :
    ∀ (benv : BCEnv) (cfg : ActionConfig) (value : Int),
      benv.conf_readable = true →
      (benv.socket_path = none ∨ benv.path_is_socket = false) →
      BrightnessControl.init benv = .ok false ∧
      BrightnessControl.modify_brightness benv false value = ([], .ok ()) ∧
      BrightnessControl.save_state benv false = ([], .ok ()) ∧
      BrightnessControl.restore_state benv false = ([], .ok ()) ∧
      BrightnessControl.set_powersave benv false = ([], .ok ()) ∧
      video.modify_brightness benv cfg.brightness_modifier = ([], .ok ()) ∧
      video.handle_event benv cfg (some "brightnessup") (some "BRTUP") =
        ([], .ok 0) := by
  intro benv cfg value hconf hsock
  have hmb : video.modify_brightness benv cfg.brightness_modifier =
      ([], .ok ()) := by
    rcases hsock with h | h
    · simp [video.modify_brightness, hconf, h]
    · cases hp : benv.socket_path <;>
        simp [video.modify_brightness, hconf, h, hp]
  refine ⟨?_, rfl, rfl, rfl, rfl, hmb, ?_⟩
  · rcases hsock with h | h
    · simp [BrightnessControl.init, hconf, h]
    · cases hp : benv.socket_path <;>
        simp [BrightnessControl.init, hconf, h, hp]
  · simp [video.handle_event, video.run_modify, hmb]

/-- Instantiation of daemon_absent_degrades_gracefully at a concrete
environment without a daemon socket. -/
theorem daemon_absent_degrades_gracefully_witness :
    noSocketBCEnv.conf_readable = true ∧
    (noSocketBCEnv.socket_path = none ∨ noSocketBCEnv.path_is_socket = false) ∧
    video.handle_event noSocketBCEnv testConfig (some "brightnessup")
      (some "BRTUP") = ([], .ok 0) :=
  ⟨rfl, Or.inl rfl,
   (daemon_absent_degrades_gracefully noSocketBCEnv testConfig 0 rfl
      (Or.inl rfl)).2.2.2.2.2.2⟩

/-- C10 counterexample: handler-specific codes do not reach the exit code:
the ac_adapter handler reports its own code 1 for a device mismatch, yet
the invocation exits 3, and a video device mismatch (also handler code 1)
exits with the same unified code 3. -/
theorem handler_codes_unified_to_3 :
    ac_adapter.handle_event noSocketBCEnv true testConfig (some "OTHER") none =
      ([], .ok 1) ∧
    acpi_action.dispatch testEnv testConfig
        ["acpi_action", "ac_adapter", "OTHER"] = ([], .ok 3) ∧
    acpi_action.dispatch testEnv testConfig
        ["acpi_action", "video/brightnessup", "OTHER"] = ([], .ok 3) := by
  decide

/-- C10 amended: exit code 0 on success and for fewer than two arguments; 1
whenever configuration loading fails, which in the shipped code is every
invocation that reaches the load (from_path never returns a value); 2
exactly for an unrecognized group; and 3 for every non-zero handler result:
the handler-specific code is logged but the process exit code is the single
value 3 for all handlers. -/
theorem exit_code_mapping :
    ∀ (env : acpi_action.Env) (cfg : ActionConfig) (args : List String)
      (effs : List Effect) (n : Int),
      (args.length < 2 → acpi_action.main env args = ([], .ok 0)) ∧
      (¬ args.length < 2 → acpi_action.main env args = ([], .ok 1)) ∧
      (acpi_action.dispatchTarget (acpi_action.eventGroup args) ≠ none →
        acpi_action.handlerResult env cfg args = (effs, .ok n) →
        acpi_action.dispatch env cfg args =
          (effs, .ok (if n = 0 then 0 else 3))) ∧
      (acpi_action.dispatchTarget (acpi_action.eventGroup args) = none →
        acpi_action.dispatch env cfg args = ([], .ok 2)) := by
  intro env cfg args effs n
  refine ⟨fun h => ?_, fun h => ?_, fun ht hr => ?_, fun ht => ?_⟩
  · simp [acpi_action.main, h]
  · unfold acpi_action.main
    rw [if_neg h]
    cases hc : ActionConfig.from_path env.config_is_file env.config_content with
    | error e => rfl
    | ok c => exact absurd hc (from_path_no_ok _ _ _)
  · unfold acpi_action.dispatch
    rw [if_neg ht, hr]
  · unfold acpi_action.dispatch
    rw [if_pos ht]

/-- Instantiation of exit_code_mapping at concrete invocations. -/
theorem exit_code_mapping_witness :
    ([] : List String).length < 2 ∧
    acpi_action.main testEnv [] = ([], .ok 0) ∧
    ¬ (["acpi_action", "battery", "BAT0"] : List String).length < 2 ∧
    acpi_action.main testEnv ["acpi_action", "battery", "BAT0"] = ([], .ok 1) ∧
    acpi_action.dispatch testEnv testConfig ["acpi_action", "battery", "XXX"] =
      ([], .ok (if (1 : Int) = 0 then 0 else 3)) :=
  ⟨by decide,
   (exit_code_mapping testEnv testConfig [] [] 0).1 (by decide),
   by decide,
   (exit_code_mapping testEnv testConfig ["acpi_action", "battery", "BAT0"]
      [] 0).2.1 (by decide),
   (exit_code_mapping testEnv testConfig ["acpi_action", "battery", "XXX"]
      [] 1).2.2.1 (by decide) (by decide)⟩

end TJTools
